import Mathlib

/-!
Shallow embedding of the e-commerce backend (Django app `core`):
checkout (`OrderViewSet.create` in `views.py`), shipping-fee helper
(`helpers.py`), coupon and order models (`models.py`), and the loyalty
point signal (`award_points_logic` in `signals.py`).

Money (`Decimal` fields with two decimal places) is embedded as `Rat`:
all arithmetic performed by the code on these values (addition,
subtraction, multiplication, division by 100, floor division by 10) is
exact on such rationals. Timestamps are embedded as `Int` seconds.
-/

namespace EcomApp

/-- Model of the `OrderStatus` text choices from `models.py`. -/
inductive OrderStatus where
  | PENDING
  | PROCESSING
  | SHIPPED
  | DELIVERED
  | CANCELLED
  | RETURNED
  | REFUNDED
deriving DecidableEq, Repr

/-- Model of the `LoyaltyTier` text choices from `models.py`. -/
inductive LoyaltyTier where
  | BRONZE
  | SILVER
  | GOLD
deriving DecidableEq, Repr

/-- Python's `str.upper()` on the ASCII city codes the app stores:
uppercase each character. -/
def strUpper (s : String) : String :=
  String.mk (s.data.map Char.toUpper)

/-- Embedding of `calculate_shipping_fee` from `helpers.py`: 10.00 when
`(city or "").upper()` is CASABLANCA, flat 25.00 otherwise. -/
def calculate_shipping_fee (city : String) : Rat :=
  if strUpper city = "CASABLANCA" then 10 else 25

/-- Model of `LoyaltyProfile` (`models.py`): current points, lifetime points
used for the tier, and the stored tier. -/
structure LoyaltyProfile where
  points : Nat
  total_lifetime_points : Nat
  tier : LoyaltyTier
deriving DecidableEq, Repr

/-- Tier thresholds of `LoyaltyProfile.calculate_tier` (`models.py`):
lifetime points >= 2000 gives GOLD, >= 500 gives SILVER, else BRONZE. -/
def calculate_tier (total_lifetime_points : Nat) : LoyaltyTier :=
  if 2000 <= total_lifetime_points then LoyaltyTier.GOLD
  else if 500 <= total_lifetime_points then LoyaltyTier.SILVER
  else LoyaltyTier.BRONZE

/-- One `LoyaltyHistory` row (`models.py`). -/
structure LoyaltyHistory where
  type : String
  points : Nat
  description : String
deriving DecidableEq, Repr

/-- Embedding of `award_points_logic` from `signals.py`, the `pre_save` receiver on
`Order`, restricted to an already-persisted order (`instance.pk` set).
Fires its effect only when the previous status is not DELIVERED and the
new one is. `net_spent = total_amount - shipping_fee`;
`points_earned = int(net_spent // 10)` (floor, since the guard has
`net_spent > 0`); under a further `points_earned > 0` guard the GOLD
multiplier `int(points_earned * 1.5)` is applied (embedded as
`3 * n / 2` with `Nat` floor division, exact for all representable
magnitudes), the profile counters are increased, the tier is recomputed
from the new lifetime total, and one EARN history row is prepended. -/
def award_points_logic (old_status new_status : OrderStatus)
    (total_amount shipping_fee : Rat) (order_id : String)
    (profile : LoyaltyProfile) (history : List LoyaltyHistory) :
    LoyaltyProfile × List LoyaltyHistory :=
  if old_status ≠ OrderStatus.DELIVERED ∧ new_status = OrderStatus.DELIVERED then
    let net_spent : Rat := total_amount - shipping_fee
    if 0 < net_spent then
      let points_earned0 : Int := ⌊net_spent / 10⌋
      if 0 < points_earned0 then
        let points_earned : Nat :=
          if profile.tier = LoyaltyTier.GOLD then 3 * points_earned0.toNat / 2
          else points_earned0.toNat
        let profile2 : LoyaltyProfile :=
          { points := profile.points + points_earned
            total_lifetime_points := profile.total_lifetime_points + points_earned
            tier := calculate_tier (profile.total_lifetime_points + points_earned) }
        (profile2,
          { type := "EARN", points := points_earned
            description := "Reward for Order " ++ order_id } :: history)
      else (profile, history)
    else (profile, history)
  else (profile, history)

/-- Order-id generation from `Order.save` (`models.py`):
`f"ORD-{timestamp}-{self.user.id}"` with `timestamp` the second-resolution
`strftime("%Y%m%d%H%M%S")` string. -/
def generate_order_id (timestamp : String) (user_id : Nat) : String :=
  "ORD-" ++ timestamp ++ "-" ++ toString user_id

/-- Model of `Product` (`models.py`), the fields checkout reads: pk, title,
price and the plain `in_stock` flag. -/
structure Product where
  id : Nat
  title : String
  price : Rat
  in_stock : Bool
deriving DecidableEq, Repr

/-- Model of `ProductVariant` (`models.py`): pk, owning product, optional
size attribute value (the string the `size__value` lookup compares), a
color choice string (default "NONE"), and the stock quantity. -/
structure ProductVariant where
  id : Nat
  product_id : Nat
  size : Option String
  color : String
  quantity : Nat
deriving DecidableEq, Repr

/-- Model of `CartItem` (`models.py`): selected size is a nullable string,
selected color is a choices string whose model default is `"NONE"` (never
NULL and never empty), plus the quantity. -/
structure CartItem where
  product : Product
  size : Option String
  color : String
  quantity : Nat
deriving DecidableEq, Repr

/-- Embedding of `CartItem.get_total_item_price` (`models.py`): `quantity * product.price`. -/
def CartItem.get_total_item_price (item : CartItem) : Rat :=
  item.quantity * item.product.price

/-- Model of `Coupon` (`models.py`). Validity timestamps are `Int` seconds. -/
structure Coupon where
  code : String
  discount_percentage : Nat
  fixed_discount_amount : Rat
  valid_from : Int
  valid_to : Int
  active : Bool
  is_used : Bool
  used_at : Option Int
deriving DecidableEq, Repr

/-- Embedding of `Coupon.is_valid` (`models.py`): active, inside the validity window,
and not yet used. -/
def Coupon.is_valid (c : Coupon) (now : Int) : Bool :=
  c.active && decide (c.valid_from ≤ now) && decide (now ≤ c.valid_to)
    && !c.is_used

/-- Model of `Order` (`models.py`), the fields the checkout and the loyalty
signal read. `shipping_fee` and `total_amount` default to 0.00. -/
structure Order where
  order_id : String
  user_id : Nat
  status : OrderStatus
  shipping_city : String
  shipping_fee : Rat
  total_amount : Rat
  coupon : Option Coupon
  created_at : Int
deriving DecidableEq, Repr

/-- Model of `OrderItem` (`models.py`): snapshot of a purchased line. -/
structure OrderItem where
  order_id : String
  product_name : String
  product_price : Rat
  size : Option String
  color : String
  quantity : Nat
deriving DecidableEq, Repr

/-- Embedding of `OrderItem.get_subtotal` (`models.py`): `product_price * quantity`. -/
def OrderItem.get_subtotal (it : OrderItem) : Rat :=
  it.product_price * it.quantity

/-- Python truthiness of the nullable `CharField` strings the checkout
tests with `if item.size:` — `None` and `""` are falsy. -/
def strTruthy : Option String → Bool
  | none => false
  | some s => !s.isEmpty

/-- The persistent store as checkout sees it: the variant table, this
user's order history, the order-item table, this user's cart lines and
the coupon table. -/
structure StoreState where
  variants : List ProductVariant
  orders : List Order
  order_items : List OrderItem
  cart_items : List CartItem
  coupons : List Coupon
deriving DecidableEq, Repr

/-- The body of a checkout request (`OrderCreateSerializer` fields the
embedding needs, plus the raw `coupon_code` the view reads from
`request.data`). -/
structure CheckoutRequest where
  shipping_city : String
  coupon_code : Option String
deriving DecidableEq, Repr

/-- The ways `OrderViewSet.create` rejects a checkout: empty cart
(HTTP 400), the active-order admission limit (HTTP 429), and a
`ValidationError` raised during stock processing (HTTP 400, rolled
back by `@transaction.atomic`). -/
inductive CheckoutError where
  | emptyCart
  | tooManyActiveOrders
  | validationError (msg : String)
deriving DecidableEq, Repr

/-- The 30-day admission-control count from `OrderViewSet.create`:
this user's orders with status PENDING, PROCESSING or SHIPPED created
at or after `now` minus 30 days. -/
def activeOrdersCount (orders : List Order) (user_id : Nat) (now : Int) : Nat :=
  orders.countP fun o =>
    o.user_id == user_id
      && (o.status == OrderStatus.PENDING || o.status == OrderStatus.PROCESSING
            || o.status == OrderStatus.SHIPPED)
      && decide (now - 30 * 86400 ≤ o.created_at)

/-- The coupon lookup of `OrderViewSet.create` step 4: first coupon
matching the code that is active and inside its validity window.
(The query does not filter on `is_used`.) -/
def findCoupon (coupons : List Coupon) (code : String) (now : Int) : Option Coupon :=
  coupons.find? fun c =>
    c.code == code && c.active && decide (c.valid_from ≤ now)
      && decide (now ≤ c.valid_to)

/-- The variant query of `OrderViewSet.create` step 5: variants of the
line's product, narrowed by `size__value` when the line's size is truthy
and by `color` when the line's color is truthy, then `.first()`. -/
def findVariant (variants : List ProductVariant) (item : CartItem) :
    Option ProductVariant :=
  (variants.filter fun w =>
    w.product_id == item.product.id
      && (!strTruthy item.size || w.size == item.size)
      && (item.color.isEmpty || w.color == item.color)).head?

/-- Working data of checkout step 5 ("Move Items & Calculate Total"):
the variant table as mutated so far inside the open transaction, the
running total, and the `OrderItem` snapshots accumulated for
`bulk_create`. -/
structure ItemLoopState where
  variants : List ProductVariant
  total_amount : Rat
  order_items : List OrderItem
deriving DecidableEq, Repr

/-- Embedding of `variant.quantity -= item.quantity; variant.save()`: update the one
row with the variant's pk. -/
def decrementVariant (variants : List ProductVariant) (vid : Nat) (q : Nat) :
    List ProductVariant :=
  variants.map fun w =>
    if w.id == vid then { w with quantity := w.quantity - q } else w

/-- One iteration of the checkout loop (`views.py`): look up the first
matching variant; when the line carries a truthy size or color, require
the variant to exist and have enough stock and decrement it; in every
non-raising case add the line's price to the total and snapshot an
`OrderItem`. Raises (`Except.error`) the `ValidationError` messages of
the source. -/
def processCartItem (order_id : String) (acc : ItemLoopState) (item : CartItem) :
    Except String ItemLoopState :=
  let variant := findVariant acc.variants item
  let finish : List ProductVariant → Except String ItemLoopState := fun vs =>
    Except.ok
      { variants := vs
        total_amount := acc.total_amount + item.get_total_item_price
        order_items := acc.order_items ++
          [{ order_id := order_id, product_name := item.product.title
             product_price := item.product.price, size := item.size
             color := item.color, quantity := item.quantity }] }
  if strTruthy item.size || !item.color.isEmpty then
    match variant with
    | none => Except.error ("Variant not found: " ++ item.product.title)
    | some v =>
      if v.quantity < item.quantity then
        Except.error ("Out of stock: " ++ item.product.title)
      else finish (decrementVariant acc.variants v.id item.quantity)
  else finish acc.variants

/-- The checkout loop over the cart lines: sequential, aborting the
whole transaction at the first raised `ValidationError`. -/
def processItemsLoop (order_id : String) :
    ItemLoopState → List CartItem → Except String ItemLoopState
  | acc, [] => Except.ok acc
  | acc, item :: rest =>
    match processCartItem order_id acc item with
    | Except.error e => Except.error e
    | Except.ok acc2 => processItemsLoop order_id acc2 rest

/-- The whole checkout loop over the cart lines, starting from the
current variant table, a total of 0.00 and no snapshots. -/
def processCartItems (order_id : String) (variants : List ProductVariant)
    (items : List CartItem) : Except String ItemLoopState :=
  processItemsLoop order_id
    { variants := variants, total_amount := 0, order_items := [] } items

/-- Embedding of `OrderViewSet.create` (`views.py`), the checkout endpoint, as a
transition on the store state. `now` is `timezone.now()` as seconds,
`ts` its `strftime("%Y%m%d%H%M%S")` rendering. The whole body runs
under `@transaction.atomic`, so every rejecting branch returns the
caller's state unchanged; the success branch commits the decremented
variants, the new order row, the bulk-created order items and the
cleared cart. -/
def placeOrder (st : StoreState) (user_id : Nat) (req : CheckoutRequest)
    (now : Int) (ts : String) : StoreState × Except CheckoutError Order :=
  if st.cart_items.isEmpty then (st, Except.error CheckoutError.emptyCart)
  else if 3 ≤ activeOrdersCount st.orders user_id now then
    (st, Except.error CheckoutError.tooManyActiveOrders)
  else
    let oid := generate_order_id ts user_id
    let coupon : Option Coupon :=
      match req.coupon_code with
      | some code => if code.isEmpty then none else findCoupon st.coupons code now
      | none => none
    match processCartItems oid st.variants st.cart_items with
    | Except.error msg => (st, Except.error (CheckoutError.validationError msg))
    | Except.ok loop =>
      let total : Rat :=
        match coupon with
        | some c =>
          loop.total_amount -
            loop.total_amount * (c.discount_percentage : Rat) / 100
        | none => loop.total_amount
      let order : Order :=
        { order_id := oid, user_id := user_id, status := OrderStatus.PENDING
          shipping_city := req.shipping_city, shipping_fee := 0
          total_amount := total, coupon := coupon, created_at := now }
      ({ st with
          variants := loop.variants
          orders := st.orders ++ [order]
          order_items := st.order_items ++ loop.order_items
          cart_items := [] },
        Except.ok order)

/-- Boolean success test on a checkout outcome. -/
def checkoutOk : Except CheckoutError Order → Bool
  | Except.ok _ => true
  | Except.error _ => false

/-- Sum of the cart lines' prices, the value checkout step 5 accumulates
before any discount. -/
def cartSum (items : List CartItem) : Rat :=
  (items.map CartItem.get_total_item_price).sum

/-- The `points_earned` amount of `award_points_logic` after the GOLD
multiplier: `int(net_spent // 10)`, turned into `int(points_earned * 1.5)`
when the stored tier is GOLD. -/
def pointsAward (tier : LoyaltyTier) (total_amount shipping_fee : Rat) : Nat :=
  let e0 : Nat := (⌊(total_amount - shipping_fee) / 10⌋).toNat
  if tier = LoyaltyTier.GOLD then 3 * e0 / 2 else e0

theorem floor_div_ten_pos_of_rat {x : Rat} (h : 1 ≤ ⌊x / 10⌋) : 0 < x := by
  have h10 : (1 : Rat) ≤ x / 10 := by
    have := Int.le_floor.mp h
    simpa using this
  nlinarith [h10]

/-- C4 (amended). On a transition into DELIVERED whose
`net = total_amount - shipping_fee` satisfies `⌊net / 10⌋ ≥ 1`
(equivalently, the earned points are positive), the award logic adds
`e = ⌊net / 10⌋` points — further floored through `int(e * 1.5)` when the
stored tier is GOLD — to both counters, recomputes the tier from the new
lifetime total with the 2000/500 thresholds, and appends exactly one
EARN history row carrying that amount and a description referencing the
order id. -/
theorem delivered_transition_awards_points
    (old_status new_status : OrderStatus) (total_amount shipping_fee : Rat)
    (order_id : String) (p : LoyaltyProfile) (hist : List LoyaltyHistory)
    (hold : old_status ≠ OrderStatus.DELIVERED)
    (hnew : new_status = OrderStatus.DELIVERED)
    (hpos : 1 ≤ ⌊(total_amount - shipping_fee) / 10⌋) :
    award_points_logic old_status new_status total_amount shipping_fee
        order_id p hist =
      ({ points := p.points + pointsAward p.tier total_amount shipping_fee,
          total_lifetime_points :=
            p.total_lifetime_points + pointsAward p.tier total_amount shipping_fee,
          tier := calculate_tier
            (p.total_lifetime_points + pointsAward p.tier total_amount shipping_fee) },
        { type := "EARN",
          points := pointsAward p.tier total_amount shipping_fee,
          description := "Reward for Order " ++ order_id } :: hist) := by
  have hnet : (0 : Rat) < total_amount - shipping_fee :=
    floor_div_ten_pos_of_rat hpos
  have hfl : (0 : Int) < ⌊(total_amount - shipping_fee) / 10⌋ := hpos
  simp only [award_points_logic, pointsAward]
  rw [if_pos ⟨hold, hnew⟩, if_pos hnet, if_pos hfl]

/-- Witness for `delivered_transition_awards_points`: PENDING to
DELIVERED with total 250.00, shipping 10.00 (net 240.00) on a BRONZE
profile with 10 points and 490 lifetime points earns 24 points, lifts
the lifetime total to 514 (SILVER), and appends the EARN row. -/
theorem delivered_transition_awards_points_witness :
    award_points_logic OrderStatus.PENDING OrderStatus.DELIVERED 250 10
        "ORD-42" ⟨10, 490, LoyaltyTier.BRONZE⟩ [] =
      (⟨34, 514, LoyaltyTier.SILVER⟩,
        [⟨"EARN", 24, "Reward for Order ORD-42"⟩]) := by
  rw [delivered_transition_awards_points OrderStatus.PENDING
    OrderStatus.DELIVERED 250 10 "ORD-42" ⟨10, 490, LoyaltyTier.BRONZE⟩ []
    (by decide) rfl (by norm_num)]
  norm_num [pointsAward, calculate_tier]
  decide

/-- C4 counterexample: a DELIVERED transition with
`net = 105.00 - 100.00 = 5.00 > 0` leaves the profile untouched and
appends no history row at all, although the claim requires, for every
positive net, one EARN row carrying the earned amount (here
`floor(5/10) = 0`). -/
theorem delivered_small_net_appends_no_row :
    (0 : Rat) < 105 - 100 ∧
    award_points_logic OrderStatus.PENDING OrderStatus.DELIVERED 105 100
        "ORD-7" ⟨0, 0, LoyaltyTier.BRONZE⟩ [] =
      (⟨0, 0, LoyaltyTier.BRONZE⟩, []) ∧
    (award_points_logic OrderStatus.PENDING OrderStatus.DELIVERED 105 100
        "ORD-7" ⟨0, 0, LoyaltyTier.BRONZE⟩ []).2.length ≠ 1 := by
  norm_num [award_points_logic]

/-- C5. The award fires only on the edge into DELIVERED: whenever the
previously persisted status is already DELIVERED, or the new status is
not DELIVERED, `award_points_logic` returns the profile and the history
unchanged. -/
theorem no_award_off_the_delivered_edge
    (old_status new_status : OrderStatus) (total_amount shipping_fee : Rat)
    (order_id : String) (p : LoyaltyProfile) (hist : List LoyaltyHistory)
    (h : old_status = OrderStatus.DELIVERED ∨
      new_status ≠ OrderStatus.DELIVERED) :
    award_points_logic old_status new_status total_amount shipping_fee
      order_id p hist = (p, hist) := by
  have hc : ¬(old_status ≠ OrderStatus.DELIVERED ∧
      new_status = OrderStatus.DELIVERED) := by
    rintro ⟨h1, h2⟩
    rcases h with h3 | h3
    · exact h1 h3
    · exact h3 h2
  unfold award_points_logic
  rw [if_neg hc]

/-- Witness for `no_award_off_the_delivered_edge`: re-saving an order
that is already DELIVERED (status DELIVERED before and after) awards
nothing. -/
theorem no_award_off_the_delivered_edge_witness :
    award_points_logic OrderStatus.DELIVERED OrderStatus.DELIVERED 500 0
      "ORD-9" ⟨5, 600, LoyaltyTier.SILVER⟩ [] =
      (⟨5, 600, LoyaltyTier.SILVER⟩, []) :=
  no_award_off_the_delivered_edge OrderStatus.DELIVERED
    OrderStatus.DELIVERED 500 0 "ORD-9" ⟨5, 600, LoyaltyTier.SILVER⟩ []
    (Or.inl rfl)

/-- C10. A DELIVERED transition whose positive net is below 10 currency
units (`points_earned = int(net // 10) = 0`) changes nothing: same
points, same lifetime total, same tier, and no history row of any kind
is created. -/
theorem small_positive_net_awards_nothing
    (old_status new_status : OrderStatus) (total_amount shipping_fee : Rat)
    (order_id : String) (p : LoyaltyProfile) (hist : List LoyaltyHistory)
    (hold : old_status ≠ OrderStatus.DELIVERED)
    (hnew : new_status = OrderStatus.DELIVERED)
    (h1 : 0 < total_amount - shipping_fee)
    (h2 : total_amount - shipping_fee < 10) :
    award_points_logic old_status new_status total_amount shipping_fee
      order_id p hist = (p, hist) := by
  have hq : (total_amount - shipping_fee) / 10 < 1 := by linarith
  have hfl : ⌊(total_amount - shipping_fee) / 10⌋ < 1 :=
    Int.floor_lt.mpr (by exact_mod_cast hq)
  simp only [award_points_logic]
  rw [if_pos ⟨hold, hnew⟩, if_pos h1, if_neg (by omega)]

/-- Witness for `small_positive_net_awards_nothing`: net 7.50 (total
107.50, shipping 100.00) awards nothing. -/
theorem small_positive_net_awards_nothing_witness :
    (0 : Rat) < (215 : Rat) / 2 - 100 ∧ (215 : Rat) / 2 - 100 < 10 ∧
    award_points_logic OrderStatus.SHIPPED OrderStatus.DELIVERED
      ((215 : Rat) / 2) 100 "ORD-11" ⟨3, 30, LoyaltyTier.BRONZE⟩ [] =
      (⟨3, 30, LoyaltyTier.BRONZE⟩, []) :=
  ⟨by norm_num, by norm_num,
    small_positive_net_awards_nothing OrderStatus.SHIPPED
      OrderStatus.DELIVERED ((215 : Rat) / 2) 100 "ORD-11"
      ⟨3, 30, LoyaltyTier.BRONZE⟩ [] (by decide) rfl (by norm_num)
      (by norm_num)⟩

/-- The product of the spec's checkout scenario: unit price 100.00, in
stock. -/
def c1_product : Product :=
  { id := 1, title := "Classic Tee", price := 100, in_stock := true }

/-- Store for the scenario: one cart line of quantity 2 with no variant
selection (size NULL, color at its model default "NONE"); the product
has a default-color variant row with ample stock so the checkout
succeeds. -/
def c1_state : StoreState :=
  { variants := [⟨1, 1, none, "NONE", 5⟩]
    orders := []
    order_items := []
    cart_items := [⟨c1_product, none, "NONE", 2⟩]
    coupons := [] }

/-- The scenario checkout: city CASABLANCA, no coupon. -/
def c1_checkout : StoreState × Except CheckoutError Order :=
  placeOrder c1_state 7 { shipping_city := "CASABLANCA", coupon_code := none }
    1000 "20250101120000"

/-- C1 (code bug evidence). The scenario checkout (one line, price
100.00, quantity 2, city CASABLANCA, no coupon) succeeds, but the
persisted order has `total_amount = 200.00` and `shipping_fee = 0.00`:
`calculate_shipping_fee` resolves CASABLANCA to 10.00, yet the checkout
never calls it, so the claimed total `200 - 0 + 10 = 210.00` is not
what the code stores. -/
theorem scenario_total_omits_resolved_shipping_fee :
    checkoutOk c1_checkout.2 = true ∧
    c1_checkout.1.orders.map Order.total_amount = [200] ∧
    c1_checkout.1.orders.map Order.shipping_fee = [0] ∧
    calculate_shipping_fee "CASABLANCA" = 10 ∧
    cartSum c1_state.cart_items - 0 + calculate_shipping_fee "CASABLANCA"
      = 210 ∧
    c1_checkout.1.orders.map Order.total_amount ≠ [210] := by
  have h1 : "NONE".isEmpty = false := by decide
  have h2 : strUpper "CASABLANCA" = "CASABLANCA" := by decide
  norm_num [h1, h2, c1_checkout, c1_state, c1_product, placeOrder,
    processCartItems, processItemsLoop, processCartItem, findVariant, findCoupon,
    activeOrdersCount, generate_order_id, decrementVariant, strTruthy,
    cartSum, CartItem.get_total_item_price, checkoutOk,
    calculate_shipping_fee]

/-- The coupon a checkout attached, if the checkout succeeded. -/
def appliedCoupon : Except CheckoutError Order → Option Coupon
  | Except.ok o => o.coupon
  | Except.error _ => none

/-- A single-use style coupon: active, inside its window, never used. -/
def c2_coupon : Coupon :=
  ⟨"SAVE10", 10, 0, 0, 100000, true, false, none⟩

def c2_product : Product := ⟨2, "Mug", 50, true⟩

def c2_line : CartItem := ⟨c2_product, none, "NONE", 1⟩

def c2_state : StoreState :=
  { variants := [⟨2, 2, none, "NONE", 10⟩]
    orders := []
    order_items := []
    cart_items := [c2_line]
    coupons := [c2_coupon] }

def c2_req : CheckoutRequest := ⟨"RABAT", some "SAVE10"⟩

/-- First checkout applying the coupon. -/
def c2_first : StoreState × Except CheckoutError Order :=
  placeOrder c2_state 3 c2_req 100 "20250101100000"

/-- The store after the first checkout, with the cart refilled for a
second purchase. -/
def c2_state2 : StoreState := { c2_first.1 with cart_items := [c2_line] }

/-- Second checkout supplying the same coupon code, later. -/
def c2_second : StoreState × Except CheckoutError Order :=
  placeOrder c2_state2 3 c2_req 200 "20250101100100"

/-- C2 (code bug evidence). The first checkout applies the coupon but
leaves the coupon row exactly as it was (`is_used` still false,
`used_at` still NULL), and a later checkout supplying the same code
applies the very same coupon again: the checkout query neither filters
on `is_used` nor ever flips it. -/
theorem coupon_reapplied_and_never_marked_used :
    c2_coupon.is_used = false ∧
    appliedCoupon c2_first.2 = some c2_coupon ∧
    c2_first.1.coupons = [c2_coupon] ∧
    appliedCoupon c2_second.2 = some c2_coupon ∧
    c2_second.1.coupons = [c2_coupon] := by
  have h1 : "NONE".isEmpty = false := by decide
  have h3 : "SAVE10".isEmpty = false := by decide
  norm_num [h1, h3, c2_first, c2_second, c2_state, c2_state2, c2_req, c2_line,
    c2_product, c2_coupon, placeOrder, processCartItems, processItemsLoop, processCartItem,
    findVariant, findCoupon, activeOrdersCount, generate_order_id,
    decrementVariant, strTruthy, CartItem.get_total_item_price,
    appliedCoupon, List.find?]

def c8_product : Product := ⟨4, "Scarf", 30, true⟩

/-- Store for C8: the product is in stock via its plain flag and has no
variant rows; the cart line carries no selection (size NULL, color at
its model default "NONE"). -/
def c8_state : StoreState :=
  { variants := []
    orders := []
    order_items := []
    cart_items := [⟨c8_product, none, "NONE", 1⟩]
    coupons := [] }

/-- C8 (code bug evidence). Because the stored default color "NONE" is
a truthy string, `if item.size or item.color:` is true even for a line
with no selection, so the checkout runs the variant branch, finds no
variant, and aborts the whole order with "Variant not found" — the
`in_stock = true` flag gates nothing here. -/
theorem no_selection_line_still_hits_variant_branch :
    c8_product.in_stock = true ∧
    placeOrder c8_state 5 ⟨"RABAT", none⟩ 50 "20250101090000" =
      (c8_state,
        Except.error (CheckoutError.validationError "Variant not found: Scarf")) := by
  have h1 : "NONE".isEmpty = false := by decide
  norm_num [h1, c8_state, c8_product, placeOrder, processCartItems,
    processItemsLoop, processCartItem, findVariant, findCoupon, activeOrdersCount,
    generate_order_id, decrementVariant, strTruthy,
    CartItem.get_total_item_price]
  decide

/-- Accumulator property of `Nat.toDigitsCore`: the digits of `n` are
produced in front of the accumulator. -/
theorem toDigitsCore_acc_eq (b : Nat) :
    ∀ (fuel n : Nat) (ds : List Char),
      Nat.toDigitsCore b fuel n ds = Nat.toDigitsCore b fuel n [] ++ ds := by
  intro fuel
  induction fuel with
  | zero => intro n ds; simp [Nat.toDigitsCore]
  | succ f ih =>
    intro n ds
    simp only [Nat.toDigitsCore]
    by_cases h : n / b = 0
    · simp [h]
    · simp only [if_neg h]
      rw [ih (n / b) (Nat.digitChar (n % b) :: ds),
        ih (n / b) [Nat.digitChar (n % b)], List.append_assoc]
      rfl

/-- With enough fuel, `Nat.toDigitsCore` does not depend on the exact
fuel. -/
theorem toDigitsCore_fuel_irrel (b : Nat) (hb : 2 ≤ b) :
    ∀ (n fuel1 fuel2 : Nat) (ds : List Char), n < fuel1 → n < fuel2 →
      Nat.toDigitsCore b fuel1 n ds = Nat.toDigitsCore b fuel2 n ds := by
  intro n
  induction n using Nat.strong_induction_on with
  | _ n ih =>
    intro fuel1 fuel2 ds h1 h2
    match fuel1, fuel2 with
    | f1 + 1, f2 + 1 =>
      simp only [Nat.toDigitsCore]
      by_cases h : n / b = 0
      · simp [h]
      · simp only [if_neg h]
        have hn : 0 < n := by
          rcases Nat.eq_zero_or_pos n with h0 | h0
          · exact absurd (by simp [h0]) h
          · exact h0
        have hdiv : n / b < n := Nat.div_lt_self hn hb
        exact ih (n / b) hdiv f1 f2 _ (by omega) (by omega)

theorem toDigits_small (n : Nat) (h : n < 10) :
    Nat.toDigits 10 n = [Nat.digitChar n] := by
  simp only [Nat.toDigits, Nat.toDigitsCore]
  rw [if_pos (Nat.div_eq_of_lt h), Nat.mod_eq_of_lt h]

theorem toDigits_step (n : Nat) (h : 10 ≤ n) :
    Nat.toDigits 10 n =
      Nat.toDigits 10 (n / 10) ++ [Nat.digitChar (n % 10)] := by
  have hdiv0 : n / 10 ≠ 0 := by
    have := Nat.div_pos h (by norm_num : 0 < 10)
    omega
  simp only [Nat.toDigits, Nat.toDigitsCore]
  rw [if_neg hdiv0, toDigitsCore_acc_eq]
  congr 1
  have hlt : n / 10 < n := Nat.div_lt_self (by omega) (by norm_num)
  exact toDigitsCore_fuel_irrel 10 (by norm_num) (n / 10) n (n / 10 + 1) []
    (by omega) (by omega)

theorem toDigits_ne_nil (n : Nat) : Nat.toDigits 10 n ≠ [] := by
  by_cases h : n < 10
  · rw [toDigits_small n h]; simp
  · rw [toDigits_step n (by omega)]; simp

theorem digitChar_inj_lt : ∀ a < 10, ∀ b < 10,
    Nat.digitChar a = Nat.digitChar b → a = b := by decide

/-- Two distinct naturals have distinct decimal digit strings. -/
theorem toDigits_ten_inj :
    ∀ (m n : Nat), Nat.toDigits 10 m = Nat.toDigits 10 n → m = n := by
  intro m
  induction m using Nat.strong_induction_on with
  | _ m ih =>
    intro n h
    by_cases hm : m < 10
    · by_cases hn : n < 10
      · rw [toDigits_small m hm, toDigits_small n hn] at h
        simp only [List.cons.injEq, and_true] at h
        exact digitChar_inj_lt m hm n hn h
      · rw [toDigits_small m hm, toDigits_step n (by omega)] at h
        have hlen := congrArg List.length h
        simp only [List.length_cons, List.length_append,
          List.length_nil] at hlen
        have hz : (Nat.toDigits 10 (n / 10)).length = 0 := by omega
        exact absurd (List.eq_nil_of_length_eq_zero hz)
          (toDigits_ne_nil (n / 10))
    · by_cases hn : n < 10
      · rw [toDigits_step m (by omega), toDigits_small n hn] at h
        have hlen := congrArg List.length h
        simp only [List.length_cons, List.length_append,
          List.length_nil] at hlen
        have hz : (Nat.toDigits 10 (m / 10)).length = 0 := by omega
        exact absurd (List.eq_nil_of_length_eq_zero hz)
          (toDigits_ne_nil (m / 10))
      · rw [toDigits_step m (by omega), toDigits_step n (by omega)] at h
        obtain ⟨ha, hb⟩ := List.append_inj' h (by simp)
        have hdiv : m / 10 = n / 10 :=
          ih (m / 10) (Nat.div_lt_self (by omega) (by norm_num)) (n / 10) ha
        simp only [List.cons.injEq, and_true] at hb
        have hmod : m % 10 = n % 10 :=
          digitChar_inj_lt (m % 10) (Nat.mod_lt m (by norm_num)) (n % 10)
            (Nat.mod_lt n (by norm_num)) hb
        omega

/-- Decimal rendering of naturals is injective: the user id printed
after the final dash of an order id determines the user. -/
theorem nat_repr_inj {m n : Nat} (h : Nat.repr m = Nat.repr n) : m = n := by
  apply toDigits_ten_inj
  have hd := congrArg String.data h
  simpa [Nat.repr, List.asString] using hd

/-- C9 counterexample: two orders saved by the same user (id 7) within
the same second get the very same generated order id — the generation
depends only on the second-resolution timestamp and the user id, so the
claimed "the generated order_ids differ" fails for this pair. -/
theorem same_user_same_second_ids_collide :
    generate_order_id "20250101120000" 7 = "ORD-20250101120000-7" ∧
    generate_order_id "20250101120000" 7 =
      generate_order_id "20250101120000" 7 := by
  exact ⟨by decide, rfl⟩

/-- C9 (amended). A successful checkout appends exactly one order row,
and the generated id is injective in the pair (timestamp, user id): for
timestamps of equal length — `strftime("%Y%m%d%H%M%S")` always yields
14 characters — two generated ids coincide exactly when both the
second-resolution timestamps and the user ids coincide. So orders of
different users always receive distinct ids, as do orders of the same
user in different seconds; only two orders by the same user in the same
second collide, and there the column's unique constraint rejects the
second row instead of making the id unique. -/
theorem order_ids_unique_per_user_and_second :
    (∀ st uid req now ts st' o,
      placeOrder st uid req now ts = (st', Except.ok o) →
        st'.orders = st.orders ++ [o]) ∧
    (∀ (t1 t2 : String) (u1 u2 : Nat), t1.length = t2.length →
      (generate_order_id t1 u1 = generate_order_id t2 u2 ↔
        (t1 = t2 ∧ u1 = u2))) := by
  constructor
  · intro st uid req now ts st' o h
    unfold placeOrder at h
    repeat' split at h
    all_goals simp_all
    all_goals split at h
    all_goals simp_all
    all_goals (obtain ⟨h1, h2⟩ := h; rw [← h1, ← h2])
  · intro t1 t2 u1 u2 hlen
    constructor
    · intro h
      have hd := congrArg String.data h
      simp only [generate_order_id, String.data_append, List.append_assoc]
        at hd
      have hd2 := List.append_cancel_left hd
      have hlen2 : t1.data.length = t2.data.length := hlen
      obtain ⟨ht, hr⟩ := List.append_inj hd2 hlen2
      refine ⟨String.ext ht, ?_⟩
      have hr2 := List.append_cancel_left hr
      exact nat_repr_inj (String.ext hr2)
    · rintro ⟨rfl, rfl⟩
      rfl

def c9_product : Product := ⟨6, "Cap", 40, true⟩

def c9_state : StoreState :=
  { variants := [⟨6, 6, none, "NONE", 4⟩]
    orders := []
    order_items := []
    cart_items := [⟨c9_product, none, "NONE", 1⟩]
    coupons := [] }

def c9_order : Order :=
  ⟨"ORD-20250101130000-9", 9, OrderStatus.PENDING, "RABAT", 0, 40, none, 500⟩

def c9_after : StoreState :=
  { variants := [⟨6, 6, none, "NONE", 3⟩]
    orders := [c9_order]
    order_items := [⟨"ORD-20250101130000-9", "Cap", 40, none, "NONE", 1⟩]
    cart_items := []
    coupons := [] }

/-- Witness for `order_ids_unique_per_user_and_second`: a concrete
successful checkout by user 9 appends its one order; and for the same
second, the ids of users 9 and 8 coincide exactly when the (equal)
timestamps and the (distinct) user ids both coincide — so they
differ. -/
theorem order_ids_unique_per_user_and_second_witness :
    c9_after.orders = c9_state.orders ++ [c9_order] ∧
    (generate_order_id "20250101130000" 9 = generate_order_id "20250101130000" 8 ↔
      (("20250101130000" : String) = "20250101130000" ∧ 9 = 8)) := by
  constructor
  · apply order_ids_unique_per_user_and_second.1 c9_state 9
      ⟨"RABAT", none⟩ 500 "20250101130000" c9_after c9_order
    have h1 : "NONE".isEmpty = false := by decide
    norm_num [c9_state, c9_after, c9_order, c9_product, placeOrder,
      processCartItems, processItemsLoop, processCartItem, findVariant, findCoupon,
      activeOrdersCount, generate_order_id, decrementVariant, strTruthy,
      CartItem.get_total_item_price, h1]
    decide
  · exact order_ids_unique_per_user_and_second.2 "20250101130000"
      "20250101130000" 9 8 rfl

/-- C3. The checkout runs under `@transaction.atomic`: whenever it does
not succeed — empty cart, admission limit, a missing variant or an
out-of-stock line anywhere in the cart — the store is left exactly as it
was: no order row, no order items, no decremented variant quantity (not
even for lines processed earlier in the same loop), and the cart lines
untouched. -/
theorem failed_checkout_leaves_no_trace (st : StoreState) (uid : Nat)
    (req : CheckoutRequest) (now : Int) (ts : String)
    (h : checkoutOk (placeOrder st uid req now ts).2 = false) :
    (placeOrder st uid req now ts).1 = st := by
  rcases hE : placeOrder st uid req now ts with ⟨st2, r⟩
  rw [hE] at h
  show st2 = st
  cases r with
  | ok o => simp [checkoutOk] at h
  | error e =>
    unfold placeOrder at hE
    repeat' split at hE
    all_goals simp_all
    all_goals split at hE
    all_goals simp_all

def c3_product1 : Product := ⟨11, "Shirt", 60, true⟩

def c3_product2 : Product := ⟨12, "Pants", 80, true⟩

/-- Store for the C3 witness: the first cart line can be served (variant
stock 5 covers quantity 2) but the second line requests 3 of a variant
holding only 1, so the loop decrements the first variant and then
raises. -/
def c3_state : StoreState :=
  { variants := [⟨11, 11, some "M", "RED", 5⟩, ⟨12, 12, some "L", "BLUE", 1⟩]
    orders := []
    order_items := []
    cart_items := [⟨c3_product1, some "M", "RED", 2⟩,
      ⟨c3_product2, some "L", "BLUE", 3⟩]
    coupons := [] }

/-- Witness for `failed_checkout_leaves_no_trace`: the two-line cart
whose second line is out of stock fails, and the store — including the
first line's variant quantity — is unchanged. -/
theorem failed_checkout_leaves_no_trace_witness :
    checkoutOk (placeOrder c3_state 2 ⟨"FES", none⟩ 10 "20250101140000").2
        = false ∧
    (placeOrder c3_state 2 ⟨"FES", none⟩ 10 "20250101140000").1 = c3_state := by
  have hb : checkoutOk
      (placeOrder c3_state 2 ⟨"FES", none⟩ 10 "20250101140000").2 = false := by
    have h1 : "RED".isEmpty = false := by decide
    have h2 : "BLUE".isEmpty = false := by decide
    have h3 : "M".isEmpty = false := by decide
    have h4 : "L".isEmpty = false := by decide
    norm_num [h1, h2, h3, h4, c3_state, c3_product1, c3_product2, placeOrder,
      processCartItems, processItemsLoop, processCartItem, findVariant,
      findCoupon, activeOrdersCount, generate_order_id, decrementVariant,
      strTruthy, CartItem.get_total_item_price, checkoutOk]
  exact ⟨hb, failed_checkout_leaves_no_trace c3_state 2 ⟨"FES", none⟩ 10
    "20250101140000" hb⟩

/-- C6. With a non-empty cart, the checkout is rejected with the
too-many-active-orders error (HTTP 429) exactly when the requesting
user already has at least 3 orders with status PENDING, PROCESSING or
SHIPPED created within the 30 days before the request (orders older
than 30 days, or in DELIVERED/CANCELLED/RETURNED/REFUNDED status, do
not count); on that rejection the store is unchanged, so no order is
created. -/
theorem admission_control_rejects_three_active
    (st : StoreState) (uid : Nat) (req : CheckoutRequest) (now : Int)
    (ts : String) (h : st.cart_items ≠ []) :
    ((placeOrder st uid req now ts).2 =
        Except.error CheckoutError.tooManyActiveOrders ↔
      3 ≤ activeOrdersCount st.orders uid now) ∧
    (3 ≤ activeOrdersCount st.orders uid now →
      placeOrder st uid req now ts =
        (st, Except.error CheckoutError.tooManyActiveOrders)) := by
  have hemp : st.cart_items.isEmpty = false := by
    rw [List.isEmpty_eq_false]
    exact h
  constructor
  · constructor
    · intro herr
      by_contra hge
      unfold placeOrder at herr
      rw [if_neg (by simp [hemp]), if_neg hge] at herr
      revert herr
      repeat' split <;> simp
    · intro hge
      unfold placeOrder
      rw [if_neg (by simp [hemp]), if_pos hge]
  · intro hge
    unfold placeOrder
    rw [if_neg (by simp [hemp]), if_pos hge]

def c6_product : Product := ⟨13, "Belt", 20, true⟩

/-- Store for the C6 witness: the user (id 4) already has three
PROCESSING orders created within the last 30 days. -/
def c6_state : StoreState :=
  { variants := [⟨13, 13, none, "NONE", 8⟩]
    orders := [⟨"ORD-A", 4, OrderStatus.PROCESSING, "FES", 0, 30, none, 900⟩,
      ⟨"ORD-B", 4, OrderStatus.PROCESSING, "FES", 0, 40, none, 950⟩,
      ⟨"ORD-C", 4, OrderStatus.PROCESSING, "FES", 0, 50, none, 990⟩]
    order_items := []
    cart_items := [⟨c6_product, none, "NONE", 1⟩]
    coupons := [] }

/-- Witness for `admission_control_rejects_three_active`: the fourth
checkout attempt of a user with three recent PROCESSING orders is
rejected with the 429 error and the store is unchanged. -/
theorem admission_control_rejects_three_active_witness :
    3 ≤ activeOrdersCount c6_state.orders 4 1000 ∧
    placeOrder c6_state 4 ⟨"FES", none⟩ 1000 "20250101160000" =
      (c6_state, Except.error CheckoutError.tooManyActiveOrders) := by
  have hcount : 3 ≤ activeOrdersCount c6_state.orders 4 1000 := by
    norm_num [activeOrdersCount, c6_state, List.countP, List.countP.go]
  refine ⟨hcount, ?_⟩
  exact (admission_control_rejects_three_active c6_state 4 ⟨"FES", none⟩ 1000
    "20250101160000" (by simp [c6_state])).2 hcount

theorem processCartItem_total_amount (oid : String) (acc : ItemLoopState)
    (item : CartItem) (res : ItemLoopState)
    (h : processCartItem oid acc item = Except.ok res) :
    res.total_amount = acc.total_amount + item.get_total_item_price := by
  simp only [processCartItem] at h
  repeat' split at h
  all_goals simp_all
  all_goals rw [← h]

theorem processItemsLoop_total (oid : String) :
    ∀ (items : List CartItem) (acc res : ItemLoopState),
      processItemsLoop oid acc items = Except.ok res →
      res.total_amount = acc.total_amount + cartSum items := by
  intro items
  induction items with
  | nil =>
    intro acc res h
    simp only [processItemsLoop, Except.ok.injEq] at h
    rw [← h]
    simp [cartSum]
  | cons x xs ih =>
    intro acc res h
    simp only [processItemsLoop] at h
    rcases hx : processCartItem oid acc x with e | acc2
    · rw [hx] at h
      simp at h
    · rw [hx] at h
      have ht := ih acc2 res h
      have h2 := processCartItem_total_amount oid acc x acc2 hx
      rw [ht, h2]
      simp only [cartSum, List.map_cons, List.sum_cons]
      ring

/-- C7 (amended). Whatever the applied coupon's `fixed_discount_amount`
is — zero or positive — the checkout's discount is always the
percentage one: a successful checkout that attached coupon `c` stores
`total_amount = subtotal - subtotal * discount_percentage / 100`, where
`subtotal` is the cart lines' price sum; the fixed amount is never
consulted. -/
theorem coupon_discount_is_percentage_only (st : StoreState) (uid : Nat)
    (req : CheckoutRequest) (now : Int) (ts : String) (st' : StoreState)
    (o : Order) (c : Coupon)
    (h : placeOrder st uid req now ts = (st', Except.ok o))
    (hc : o.coupon = some c) :
    o.total_amount = cartSum st.cart_items -
      cartSum st.cart_items * (c.discount_percentage : Rat) / 100 := by
  unfold placeOrder at h
  repeat' split at h
  all_goals simp_all
  all_goals split at h
  all_goals simp_all
  all_goals (obtain ⟨h1, h2⟩ := h)
  all_goals rw [← h2] at hc
  all_goals simp at hc
  rename_i acc2 heq
  rw [← h2]
  simp only [hc]
  have ht := processItemsLoop_total (generate_order_id ts uid) st.cart_items
    ⟨st.variants, 0, []⟩ acc2 heq
  simp only [ht]
  ring

/-- A coupon carrying both a positive fixed amount (50.00) and a
percentage (10). -/
def c7_coupon : Coupon := ⟨"FIX50", 10, 50, 0, 100000, true, false, none⟩

def c7_product : Product := ⟨8, "Coat", 100, true⟩

def c7_state : StoreState :=
  { variants := [⟨8, 8, none, "NONE", 9⟩]
    orders := []
    order_items := []
    cart_items := [⟨c7_product, none, "NONE", 2⟩]
    coupons := [c7_coupon] }

def c7_order : Order :=
  ⟨"ORD-20250101150000-6", 6, OrderStatus.PENDING, "FES", 0, 180,
    some c7_coupon, 10⟩

def c7_after : StoreState :=
  { variants := [⟨8, 8, none, "NONE", 7⟩]
    orders := [c7_order]
    order_items := [⟨"ORD-20250101150000-6", "Coat", 100, none, "NONE", 2⟩]
    cart_items := []
    coupons := [c7_coupon] }

theorem c7_checkout_eval :
    placeOrder c7_state 6 ⟨"FES", some "FIX50"⟩ 10 "20250101150000" =
      (c7_after, Except.ok c7_order) := by
  have h1 : "NONE".isEmpty = false := by decide
  have h2 : "FIX50".isEmpty = false := by decide
  norm_num [h1, h2, c7_state, c7_after, c7_order, c7_product, c7_coupon,
    placeOrder, processCartItems, processItemsLoop, processCartItem,
    findVariant, findCoupon, activeOrdersCount, generate_order_id,
    decrementVariant, strTruthy, CartItem.get_total_item_price, List.find?]
  decide

/-- C7 counterexample: a checkout applying a coupon whose
`fixed_discount_amount = 50.00 > 0` on a 200.00 subtotal stores
`total_amount = 180.00` — the 10% percentage discount — not the 150.00
the claim's fixed-amount precedence requires. -/
theorem fixed_discount_amount_ignored :
    0 < c7_coupon.fixed_discount_amount ∧
    appliedCoupon (placeOrder c7_state 6 ⟨"FES", some "FIX50"⟩ 10
        "20250101150000").2 = some c7_coupon ∧
    (placeOrder c7_state 6 ⟨"FES", some "FIX50"⟩ 10 "20250101150000").2 =
      Except.ok c7_order ∧
    c7_order.total_amount = 180 ∧
    cartSum c7_state.cart_items - c7_coupon.fixed_discount_amount = 150 ∧
    c7_order.total_amount ≠ 150 := by
  rw [c7_checkout_eval]
  norm_num [appliedCoupon, c7_order, c7_coupon, c7_state, c7_product,
    cartSum, CartItem.get_total_item_price]

/-- Witness for `coupon_discount_is_percentage_only`: the concrete
checkout of `c7_state` attached `c7_coupon` and stored
`180 = 200 - 200 * 10 / 100`. -/
theorem coupon_discount_is_percentage_only_witness :
    c7_order.total_amount = cartSum c7_state.cart_items -
      cartSum c7_state.cart_items *
        ((c7_coupon.discount_percentage : Nat) : Rat) / 100 :=
  coupon_discount_is_percentage_only c7_state 6 ⟨"FES", some "FIX50"⟩ 10
    "20250101150000" c7_after c7_order c7_coupon c7_checkout_eval rfl

end EcomApp
